import Mathlib

/-!
Verification development for the AstridMart kiosk (src/main.py).

The core of the program — barcode disambiguation, catalog lookup, the cart
ledger and the learning-mode quiz — is embedded shallowly below.  Python
dictionaries (`self.skus`, `self.keyboard_shortcuts`, `self.cart`) become
insertion-ordered association lists, `pygame.time.get_ticks()` timestamps
become explicit `Nat` parameters, and the `float` currency amounts become
exact rationals (`ℚ`).  The user-visible `self.scanned_item` strings are
modelled by a tagged message type carrying the same information as the
formatted strings.  Presentation-only state (fonts, scroll offsets, the
pygame surfaces) is outside the model.
-/

/-- main.py `self.barcode_timeout = 1000` (milliseconds). -/
def barcode_timeout : Nat := 1000

/-- main.py `self.scanner_speed_threshold = 100` (milliseconds). -/
def scanner_speed_threshold : Nat := 100

/-- main.py `self.scan_cooldown = 1000` (milliseconds). -/
def scan_cooldown : Nat := 1000

/-- One record of `self.skus` (products.json entry). -/
structure Product where
  name : String
  price : ℚ
  category : String
  description : String
  image : String
deriving DecidableEq, Repr

/-- `self.skus`: SKU string → product record (dict modelled as assoc list). -/
abbrev Skus := List (String × Product)

/-- `self.keyboard_shortcuts`: single-digit key → SKU string. -/
abbrev Shortcuts := List (String × String)

/-- The barcode disambiguator's mutable fields on the game object:
`self.barcode_buffer` (here a list of characters), `self.barcode_input_time`
and `self.last_key_time`. -/
structure BarcodeState where
  buffer : List Char
  inputTime : Nat
  lastKey : Nat
deriving DecidableEq, Repr

/-- main.py `process_barcode_input` (lines 412-468): one character event.
Returns the completed barcode, if any, together with the updated buffer
state.  (The `self.scanned_item` scanning-feedback assignment lives on the
game object and is not part of this state.) -/
def process_barcode_input (skus : Skus) (s : BarcodeState) (ch : Char) (now : Nat) :
    Option String × BarcodeState :=
  -- "Reset buffer if timeout exceeded"
  let s1 := if now - s.inputTime > barcode_timeout then { s with buffer := [] } else s
  -- "Detect if this is scanner input (very fast keystrokes)"
  let isScannerSpeed := now - s1.lastKey < scanner_speed_threshold
  if ch.isAlphanum then
    if s1.buffer = [] ∨ isScannerSpeed then
      let buf := s1.buffer ++ [ch]
      let s2 : BarcodeState := ⟨buf, now, now⟩
      if 8 ≤ buf.length then
        if (skus.lookup (String.mk buf)).isSome then
          (some (String.mk buf), { s2 with buffer := [] })
        else if 13 ≤ buf.length then
          (some (String.mk buf), { s2 with buffer := [] })
        else (none, s2)
      else (none, s2)
    else
      -- "Manual keyboard input - reset buffer for single key presses"
      (none, ⟨[ch], now, now⟩)
  else (none, s1)

/-- `''.join(filter(str.isalnum, complete_barcode))`. -/
def stripNonAlnum (raw : String) : String :=
  String.mk (raw.data.filter Char.isAlphanum)

/-- main.py `process_barcode_complete` (lines 470-478).  The argument is the
current `self.barcode_buffer` contents as a string; the second component of
the result is the buffer afterwards (the function clears it only on
success). -/
def process_barcode_complete (skus : Skus) (raw : String) : Option String × String :=
  if raw ≠ "" ∧ 8 ≤ raw.length then
    let clean := stripNonAlnum raw
    if (skus.lookup clean).isSome then (some clean, "") else (none, raw)
  else (none, raw)

/-- main.py `lookup_product` (lines 480-488): shortcut indirection first,
then direct SKU lookup. -/
def lookup_product (sh : Shortcuts) (sk : Skus) (code : String) : Option Product :=
  match sh.lookup code with
  | some sku => sk.lookup sku
  | none => sk.lookup code

/-- Feed a list of `(character, tick)` events through
`process_barcode_input`, collecting the per-call results. -/
def runInput (skus : Skus) : BarcodeState → List (Char × Nat) → List (Option String) × BarcodeState
  | s, [] => ([], s)
  | s, (c, t) :: rest =>
    let r := process_barcode_input skus s c t
    let r2 := runInput skus r.2 rest
    (r.1 :: r2.1, r2.2)

/-- `chainB t evs`: every event in `evs` is alphanumeric and arrives no
earlier than, and within `scanner_speed_threshold` of, the previous
timestamp (starting from `t`). -/
def chainB : Nat → List (Char × Nat) → Bool
  | _, [] => true
  | t, (c, t') :: rest =>
    decide (t ≤ t') && decide (t' - t < scanner_speed_threshold) && c.isAlphanum && chainB t' rest

/-- A nonempty scanner burst: an alphanumeric first character followed by a
`chainB` chain of fast successors. -/
def fastBurstB : List (Char × Nat) → Bool
  | [] => false
  | (c, t) :: rest => c.isAlphanum && chainB t rest

/-- One value of the `self.cart` dict (add_to_cart, lines 498-508). -/
structure CartLine where
  sku : String
  name : String
  price : ℚ
  quantity : Nat
  total_price : ℚ
  category : String
  description : String
  image_path : String
  first_added : Nat
deriving DecidableEq, Repr

/-- One entry of the append-only `self.receipt` list (lines 513-517).  The
code stores a formatted clock string; the model keeps the raw tick. -/
structure ReceiptEntry where
  item : String
  price : ℚ
  timestamp : Nat
deriving DecidableEq, Repr

/-- The user-visible `self.scanned_item` strings, as a tagged type carrying
the same data the formatted strings interpolate. -/
inductive Msg where
  | idle
  | added (name : String) (price : ℚ) (qty : Nat)
  | productNotFound
  | removedOne (name : String) (qty : Nat)
  | removedAll (name : String)
  | cartEmpty
  | cartCleared
  | correctScan (name : String)
  | wrongItem (name : String)
  | notFoundNext
deriving DecidableEq, Repr

/-- The game object's core mutable fields for retail and learning mode.
`cart` models the insertion-ordered `self.cart` dict (unique SKU keys by
construction). -/
structure GameState where
  cart : List CartLine
  total_price : ℚ
  receipt : List ReceiptEntry
  scanned_item : Msg
  last_scan_time : Nat
  timer_score : Nat
  timer_correct : Nat
  timer_items_found : List String
  learning_current_index : Nat
  learning_product_order : List Product
  current_target : Option Product
deriving DecidableEq, Repr

/-- `sku in self.cart` / `self.cart[sku]`: first line with the given SKU. -/
def cartFind (cart : List CartLine) (sku : String) : Option CartLine :=
  cart.find? (fun l => l.sku == sku)

/-- `self.cart[sku]['quantity'] += 1; self.cart[sku]['total_price'] += price`
on the (unique) line keyed `sku`. -/
def incLine (sku : String) (pr : ℚ) : List CartLine → List CartLine
  | [] => []
  | l :: ls =>
    if l.sku == sku then
      { l with quantity := l.quantity + 1, total_price := l.total_price + pr } :: ls
    else l :: incLine sku pr ls

/-- `item['quantity'] -= 1; item['total_price'] -= item['price']` on the
(unique) line keyed `sku`. -/
def decLine (sku : String) : List CartLine → List CartLine
  | [] => []
  | l :: ls =>
    if l.sku == sku then
      { l with quantity := l.quantity - 1, total_price := l.total_price - l.price } :: ls
    else l :: decLine sku ls

/-- `del self.cart[sku]`. -/
def eraseLine (sku : String) : List CartLine → List CartLine
  | [] => []
  | l :: ls => if l.sku == sku then ls else l :: eraseLine sku ls

/-- main.py `add_to_cart` (lines 490-520).  `now` stands for the
`time.time()` call producing `first_added` and the receipt timestamp.
Returns the updated state and the confirmation message. -/
def add_to_cart (p : Product) (sku : String) (now : Nat) (s : GameState) : GameState × Msg :=
  let cart' :=
    match cartFind s.cart sku with
    | some _ => incLine sku p.price s.cart
    | none =>
      s.cart ++ [⟨sku, p.name, p.price, 1, p.price, p.category, p.description, p.image, now⟩]
  let qty := match cartFind cart' sku with | some l => l.quantity | none => 0
  ({ s with cart := cart',
            total_price := s.total_price + p.price,
            receipt := s.receipt ++ [⟨p.name, p.price, now⟩] },
   Msg.added p.name p.price qty)

/-- main.py `scan_item` (lines 961-978): cooldown gate, catalog resolution,
cart mutation or "Product not found!". -/
def scan_item (sh : Shortcuts) (sk : Skus) (s : GameState) (code : String) (now : Nat) :
    GameState :=
  if now - s.last_scan_time < scan_cooldown then s
  else
    let s1 := { s with last_scan_time := now }
    match lookup_product sh sk code with
    | some p =>
      let sku := match sh.lookup code with | some t => t | none => code
      let r := add_to_cart p sku now s1
      { r.1 with scanned_item := r.2 }
    | none => { s1 with scanned_item := Msg.productNotFound }

/-- main.py `remove_last_item` (lines 1052-1087).  The scan over the dict
keeps the strict `first_added > last_time` comparison starting from 0, and
the Python truthiness test `if last_item_sku:` (false for `None` and for the
empty string). -/
def remove_last_item (s : GameState) : GameState :=
  if s.cart = [] then { s with scanned_item := Msg.cartEmpty }
  else
    let found := s.cart.foldl
      (fun acc l => if acc.1 < l.first_added then (l.first_added, some l.sku) else acc)
      ((0 : Nat), (none : Option String))
    match found.2 with
    | none => s
    | some sku =>
      if sku = "" then s
      else
        match cartFind s.cart sku with
        | none => s  -- unreachable: the SKU was read off a cart entry
        | some item =>
          if 1 < item.quantity then
            { s with cart := decLine sku s.cart,
                     total_price := s.total_price - item.price,
                     scanned_item := Msg.removedOne item.name (item.quantity - 1) }
          else
            { s with cart := eraseLine sku s.cart,
                     total_price := s.total_price - item.price,
                     scanned_item := Msg.removedAll item.name }

/-- main.py `clear_cart` (lines 1044-1050). -/
def clear_cart (s : GameState) : GameState :=
  { s with cart := [], total_price := 0, receipt := [], scanned_item := Msg.cartCleared }

/-- main.py `generate_new_target` (lines 1026-1033). -/
def generate_new_target (s : GameState) : GameState :=
  if h : s.learning_current_index < s.learning_product_order.length then
    { s with current_target := some (s.learning_product_order.get ⟨s.learning_current_index, h⟩),
             learning_current_index := s.learning_current_index + 1 }
  else
    { s with current_target := none }

/-- main.py `scan_timer_item` (lines 980-1024): learning-mode scan.  Every
resolved outcome (correct, wrong, or unknown) advances via
`generate_new_target`. -/
def scan_timer_item (sh : Shortcuts) (sk : Skus) (s : GameState) (code : String) (now : Nat) :
    GameState :=
  match s.current_target with
  | none => s
  | some target =>
    if now - s.last_scan_time < scan_cooldown then s
    else
      let s1 := { s with last_scan_time := now }
      match lookup_product sh sk code with
      | some p =>
        if p.name = target.name then
          generate_new_target
            { s1 with timer_correct := s1.timer_correct + 1,
                      timer_score := s1.timer_score + 1,
                      timer_items_found := s1.timer_items_found ++ [p.name],
                      scanned_item := Msg.correctScan p.name }
        else
          generate_new_target { s1 with scanned_item := Msg.wrongItem p.name }
      | none =>
        generate_new_target { s1 with scanned_item := Msg.notFoundNext }

/-- main.py `start_timer_mode` (lines 939-959).  The `random.shuffle` of the
catalog products is modelled by taking the shuffled order as a parameter;
the barcode-buffer resets act on `BarcodeState`, outside this record. -/
def start_timer_mode (order : List Product) (s : GameState) : GameState :=
  generate_new_target
    { s with timer_score := 0, timer_correct := 0, timer_items_found := [],
             learning_current_index := 0, scanned_item := Msg.idle,
             learning_product_order := order }

/-- The state after `start_retail_mode` (lines 904-914) / `__init__`: empty
cart, zero total, empty receipt, all clocks at zero. -/
def init_game_state : GameState :=
  ⟨[], 0, [], Msg.idle, 0, 0, 0, [], 0, [], none⟩

/-- Feed a list of learning-mode `(code, tick)` scan calls through
`scan_timer_item`. -/
def runTimer (sh : Shortcuts) (sk : Skus) : GameState → List (String × Nat) → GameState
  | s, [] => s
  | s, (code, t) :: rest => runTimer sh sk (scan_timer_item sh sk s code t) rest

/-- `spacedB last calls`: the calls' ticks are nondecreasing and each is at
least `scan_cooldown` after the previous accepted tick (starting from
`last`). -/
def spacedB : Nat → List (String × Nat) → Bool
  | _, [] => true
  | last, (_, t) :: rest =>
    decide (last ≤ t) && decide (scan_cooldown ≤ t - last) && spacedB t rest

/-- A cart-ledger operation as the Scan Router issues it: `add` resolves the
SKU against the fixed, session-read-only catalog exactly as `scan_item`
does (the product passed to `add_to_cart` is always `self.skus[sku]`). -/
inductive CartOp where
  | add (sku : String) (t : Nat)
  | removeLast
  | clear
deriving DecidableEq, Repr

/-- Apply one cart operation. -/
def applyCartOp (skus : Skus) (s : GameState) : CartOp → GameState
  | .add sku t =>
    match skus.lookup sku with
    | some p => (add_to_cart p sku t s).1
    | none => s
  | .removeLast => remove_last_item s
  | .clear => clear_cart s

/-- Run a sequence of cart operations. -/
def runCartOps (skus : Skus) (s : GameState) (ops : List CartOp) : GameState :=
  ops.foldl (applyCartOp skus) s

/-- `sum(line['total_price'] for line in self.cart.values())`. -/
def cartSum (cart : List CartLine) : ℚ :=
  (cart.map (fun l => l.total_price)).sum

/-- `BarcodeState` extended with a ghost `startTime`: the moment the current
buffer contents began accumulating — spec §3's "time the buffer was
(re)started".  It is set when a character is appended into an empty buffer
and when a slow keystroke replaces the buffer; it influences nothing. -/
structure BarcodeStateG where
  buffer : List Char
  inputTime : Nat
  lastKey : Nat
  startTime : Nat
deriving DecidableEq, Repr

/-- Forget the ghost field. -/
def BarcodeStateG.toBase (s : BarcodeStateG) : BarcodeState :=
  ⟨s.buffer, s.inputTime, s.lastKey⟩

/-- `process_barcode_input` instrumented with the ghost (re)start time.  The
observable logic is character-for-character that of
`process_barcode_input`; see `process_barcode_inputG_toBase`. -/
def process_barcode_inputG (skus : Skus) (s : BarcodeStateG) (ch : Char) (now : Nat) :
    Option String × BarcodeStateG :=
  let s1 := if now - s.inputTime > barcode_timeout then { s with buffer := [] } else s
  let isScannerSpeed := now - s1.lastKey < scanner_speed_threshold
  if ch.isAlphanum then
    if s1.buffer = [] ∨ isScannerSpeed then
      let start := if s1.buffer = [] then now else s1.startTime
      let buf := s1.buffer ++ [ch]
      let s2 : BarcodeStateG := ⟨buf, now, now, start⟩
      if 8 ≤ buf.length then
        if (skus.lookup (String.mk buf)).isSome then
          (some (String.mk buf), { s2 with buffer := [] })
        else if 13 ≤ buf.length then
          (some (String.mk buf), { s2 with buffer := [] })
        else (none, s2)
      else (none, s2)
    else
      (none, ⟨[ch], now, now, now⟩)
  else (none, s1)

/-- Ghost-instrumented event run. -/
def runInputG (skus : Skus) : BarcodeStateG → List (Char × Nat) → List (Option String) × BarcodeStateG
  | s, [] => ([], s)
  | s, (c, t) :: rest =>
    let r := process_barcode_inputG skus s c t
    let r2 := runInputG skus r.2 rest
    (r.1 :: r2.1, r2.2)

/-- A demo catalog product (from the default products.json, price €2.20). -/
def demo_bread : Product :=
  ⟨"White Bread", 11/5, "Bakery", "Fresh white bread loaf", "images/bread.png"⟩

/-- A demo product with price €1.50 (spec §8 scenario catalog). -/
def demo_apple : Product :=
  ⟨"Apple", 3/2, "Produce", "Fresh red apples", "images/apples.png"⟩

/-- Demo SKU mapping: an 8-character key and a 13-character key. -/
def demo_skus : Skus :=
  [("12345678", demo_apple), ("7501234567890", demo_bread)]

/-- Demo shortcut mapping: key "1" aliases the bread SKU. -/
def demo_shortcuts : Shortcuts :=
  [("1", "7501234567890")]

/-- A catalog whose only key is 7 characters long (SKUs are arbitrary
strings: products.json / the CSV import path impose no length). -/
def short_key_skus : Skus :=
  [("1234567", ⟨"Tiny Sweet", 1, "Snacks", "", ""⟩)]

/-- Ghost-instrumented run start state: fresh buffer, clocks at zero. -/
def initG : BarcodeStateG := ⟨[], 0, 0, 0⟩

/-- Twelve '1' keystrokes 99 ms apart: every gap is below
`scanner_speed_threshold`, yet the twelfth arrives 1089 ms after the buffer
started. -/
def c6_events : List (Char × Nat) :=
  [('1', 0), ('1', 99), ('1', 198), ('1', 297), ('1', 396), ('1', 495),
   ('1', 594), ('1', 693), ('1', 792), ('1', 891), ('1', 990), ('1', 1089)]

/-- The ghost state after the twelve keystrokes of `c6_events`. -/
def c6_state : BarcodeStateG := (runInputG demo_skus initG c6_events).2

/-- The retail state right after an accepted scan of shortcut "1" at tick
1000 followed by a dropped scan at tick 1999. -/
def c2_state : GameState :=
  scan_item demo_shortcuts demo_skus
    (scan_item demo_shortcuts demo_skus init_game_state "1" 1000) "1" 1999

/-- The cart ledger's inductive invariant: the running total equals the sum
of the line totals, every line has quantity ≥ 1 with
`total_price = quantity × price`, and every line's stored unit price is the
catalog price of its SKU (the catalog is read-only during a session, so
every `add_to_cart` call for a SKU passes the same product). -/
def CartInv (skus : Skus) (s : GameState) : Prop :=
  s.total_price = cartSum s.cart ∧
  ∀ l ∈ s.cart, 1 ≤ l.quantity ∧ l.total_price = (l.quantity : ℚ) * l.price ∧
    ∃ p, skus.lookup l.sku = some p ∧ p.price = l.price

/-- The cart line created when the apple is first added at tick 5. -/
def c9_line1 : CartLine :=
  ⟨"12345678", demo_apple.name, demo_apple.price, 1, demo_apple.price,
    demo_apple.category, demo_apple.description, demo_apple.image, 5⟩

/-- Cart state after one apple added at tick 5. -/
def c9_s1 : GameState := (add_to_cart demo_apple "12345678" 5 init_game_state).1

/-- Cart state after a second apple added at tick 7 (quantity aggregates). -/
def c9_s2 : GameState := (add_to_cart demo_apple "12345678" 7 c9_s1).1

/-- The apple line after `remove_last_item` decrements it back to one. -/
def c9_dec_line : CartLine :=
  ⟨"12345678", demo_apple.name, demo_apple.price, 1,
    demo_apple.price + demo_apple.price - demo_apple.price,
    demo_apple.category, demo_apple.description, demo_apple.image, 5⟩

theorem cartFind_nil (sku : String) : cartFind [] sku = none := rfl

theorem cartFind_cons (a : CartLine) (as : List CartLine) (sku : String) :
    cartFind (a :: as) sku = if (a.sku == sku) = true then some a else cartFind as sku := by
  by_cases h : (a.sku == sku) = true <;> simp [cartFind, List.find?, h]

theorem cartFind_incLine (cart : List CartLine) (sku : String) (pr : ℚ) :
    cartFind (incLine sku pr cart) sku =
      (cartFind cart sku).map
        (fun l => { l with quantity := l.quantity + 1, total_price := l.total_price + pr }) := by
  induction cart with
  | nil => rfl
  | cons a as ih =>
    by_cases h : (a.sku == sku) = true
    · rw [incLine, if_pos h, cartFind_cons, cartFind_cons, if_pos h, if_pos h]
      rfl
    · rw [incLine, if_neg h, cartFind_cons, cartFind_cons, if_neg h, if_neg h]
      exact ih

theorem cartFind_append_right (cart : List CartLine) (x : CartLine) (sku : String)
    (hnone : cartFind cart sku = none) (hx : (x.sku == sku) = true) :
    cartFind (cart ++ [x]) sku = some x := by
  induction cart with
  | nil => rw [List.nil_append, cartFind_cons, if_pos hx]
  | cons a as ih =>
    rw [cartFind_cons] at hnone
    by_cases h : (a.sku == sku) = true
    · rw [if_pos h] at hnone; exact absurd hnone (by simp)
    · rw [if_neg h] at hnone
      rw [List.cons_append, cartFind_cons, if_neg h]
      exact ih hnone

theorem mem_incLine {l' : CartLine} {sku : String} {pr : ℚ} {cart : List CartLine}
    (h : l' ∈ incLine sku pr cart) :
    l' ∈ cart ∨ ∃ l, cartFind cart sku = some l ∧
      l' = { l with quantity := l.quantity + 1, total_price := l.total_price + pr } := by
  induction cart with
  | nil => simp [incLine] at h
  | cons a as ih =>
    by_cases hc : (a.sku == sku) = true
    · rw [incLine, if_pos hc] at h
      rcases List.mem_cons.1 h with h1 | h1
      · exact Or.inr ⟨a, by rw [cartFind_cons, if_pos hc], h1⟩
      · exact Or.inl (List.mem_cons_of_mem _ h1)
    · rw [incLine, if_neg hc] at h
      rcases List.mem_cons.1 h with h1 | h1
      · exact Or.inl (by simp [h1])
      · rcases ih h1 with h2 | ⟨l, hl1, hl2⟩
        · exact Or.inl (List.mem_cons_of_mem _ h2)
        · exact Or.inr ⟨l, by rw [cartFind_cons, if_neg hc]; exact hl1, hl2⟩

theorem mem_decLine {l' : CartLine} {sku : String} {cart : List CartLine}
    (h : l' ∈ decLine sku cart) :
    l' ∈ cart ∨ ∃ l, cartFind cart sku = some l ∧
      l' = { l with quantity := l.quantity - 1, total_price := l.total_price - l.price } := by
  induction cart with
  | nil => simp [decLine] at h
  | cons a as ih =>
    by_cases hc : (a.sku == sku) = true
    · rw [decLine, if_pos hc] at h
      rcases List.mem_cons.1 h with h1 | h1
      · exact Or.inr ⟨a, by rw [cartFind_cons, if_pos hc], h1⟩
      · exact Or.inl (List.mem_cons_of_mem _ h1)
    · rw [decLine, if_neg hc] at h
      rcases List.mem_cons.1 h with h1 | h1
      · exact Or.inl (by simp [h1])
      · rcases ih h1 with h2 | ⟨l, hl1, hl2⟩
        · exact Or.inl (List.mem_cons_of_mem _ h2)
        · exact Or.inr ⟨l, by rw [cartFind_cons, if_neg hc]; exact hl1, hl2⟩

theorem mem_eraseLine {l' : CartLine} {sku : String} {cart : List CartLine}
    (h : l' ∈ eraseLine sku cart) : l' ∈ cart := by
  induction cart with
  | nil => simp [eraseLine] at h
  | cons a as ih =>
    by_cases hc : (a.sku == sku) = true
    · rw [eraseLine, if_pos hc] at h
      exact List.mem_cons_of_mem _ h
    · rw [eraseLine, if_neg hc] at h
      rcases List.mem_cons.1 h with h1 | h1
      · exact h1 ▸ List.mem_cons_self a as
      · exact List.mem_cons_of_mem _ (ih h1)

theorem cartSum_append (c1 c2 : List CartLine) :
    cartSum (c1 ++ c2) = cartSum c1 + cartSum c2 := by
  simp [cartSum]

theorem cartSum_incLine {cart : List CartLine} {sku : String} {l : CartLine} (pr : ℚ)
    (h : cartFind cart sku = some l) :
    cartSum (incLine sku pr cart) = cartSum cart + pr := by
  induction cart with
  | nil => simp [cartFind_nil] at h
  | cons a as ih =>
    rw [cartFind_cons] at h
    by_cases hc : (a.sku == sku) = true
    · simp only [incLine, if_pos hc, cartSum, List.map_cons, List.sum_cons]
      ring
    · rw [if_neg hc] at h
      simp only [incLine, if_neg hc, cartSum, List.map_cons, List.sum_cons] at ih ⊢
      rw [ih h]; ring

theorem cartSum_decLine {cart : List CartLine} {sku : String} {l : CartLine}
    (h : cartFind cart sku = some l) :
    cartSum (decLine sku cart) = cartSum cart - l.price := by
  induction cart with
  | nil => simp [cartFind_nil] at h
  | cons a as ih =>
    rw [cartFind_cons] at h
    by_cases hc : (a.sku == sku) = true
    · rw [if_pos hc] at h
      have : a = l := by simpa using h
      subst this
      simp only [decLine, if_pos hc, cartSum, List.map_cons, List.sum_cons]
      ring
    · rw [if_neg hc] at h
      simp only [decLine, if_neg hc, cartSum, List.map_cons, List.sum_cons] at ih ⊢
      rw [ih h]; ring

theorem cartSum_eraseLine {cart : List CartLine} {sku : String} {l : CartLine}
    (h : cartFind cart sku = some l) :
    cartSum (eraseLine sku cart) = cartSum cart - l.total_price := by
  induction cart with
  | nil => simp [cartFind_nil] at h
  | cons a as ih =>
    rw [cartFind_cons] at h
    by_cases hc : (a.sku == sku) = true
    · rw [if_pos hc] at h
      have : a = l := by simpa using h
      subst this
      simp only [eraseLine, if_pos hc, cartSum, List.map_cons, List.sum_cons]
      ring
    · rw [if_neg hc] at h
      simp only [eraseLine, if_neg hc, cartSum, List.map_cons, List.sum_cons] at ih ⊢
      rw [ih h]; ring

theorem generate_new_target_frame (s : GameState) :
    (generate_new_target s).last_scan_time = s.last_scan_time ∧
    (generate_new_target s).learning_product_order = s.learning_product_order ∧
    (generate_new_target s).cart = s.cart ∧
    (generate_new_target s).total_price = s.total_price ∧
    (generate_new_target s).receipt = s.receipt := by
  unfold generate_new_target
  split <;> exact ⟨rfl, rfl, rfl, rfl, rfl⟩

theorem scan_item_dropped (sh : Shortcuts) (sk : Skus) (s : GameState) (code : String)
    (now : Nat) (h : now - s.last_scan_time < scan_cooldown) :
    scan_item sh sk s code now = s := by
  unfold scan_item
  rw [if_pos h]

theorem scan_timer_item_dropped (sh : Shortcuts) (sk : Skus) (s : GameState) (code : String)
    (now : Nat) (h : now - s.last_scan_time < scan_cooldown) :
    scan_timer_item sh sk s code now = s := by
  unfold scan_timer_item
  split
  · rfl
  · rw [if_pos h]

theorem scan_item_last (sh : Shortcuts) (sk : Skus) (s : GameState) (code : String)
    (now : Nat) (h : scan_cooldown ≤ now - s.last_scan_time) :
    (scan_item sh sk s code now).last_scan_time = now := by
  unfold scan_item
  rw [if_neg (by omega)]
  cases lookup_product sh sk code with
  | none => rfl
  | some p => simp [add_to_cart]

theorem scan_timer_item_last (sh : Shortcuts) (sk : Skus) (s : GameState) (code : String)
    (now : Nat) (tg : Product) (htgt : s.current_target = some tg)
    (h : scan_cooldown ≤ now - s.last_scan_time) :
    (scan_timer_item sh sk s code now).last_scan_time = now := by
  unfold scan_timer_item
  rw [htgt]
  simp only
  rw [if_neg (by omega)]
  cases lookup_product sh sk code with
  | none => exact (generate_new_target_frame _).1
  | some p =>
    simp only
    split
    · exact (generate_new_target_frame _).1
    · exact (generate_new_target_frame _).1

/-- C5 counterexample: with a 7-character catalog key, the raw buffer
"1234567!" (length 8 before stripping) is accepted and its stripped form
"1234567" is returned even though the stripped result has length 7 < 8.
The claim that a code is returned only when the stripped string has length
at least 8 is therefore false: the length check in
`process_barcode_complete` runs on the raw buffer. -/
theorem explicit_completion_counterexample :
    (stripNonAlnum "1234567!").length < 8 ∧
    process_barcode_complete short_key_skus "1234567!" = (some "1234567", "") := by
  constructor
  · decide
  · rfl

/-- C5 (amended): `onExplicitCompletion` returns a code iff the RAW buffer
has length ≥ 8 and the stripped string is a known catalog key; in that case
it returns the stripped string and clears the buffer, otherwise it returns
none and leaves the buffer to the caller. -/
theorem explicit_completion_characterization (skus : Skus) (raw : String) :
    process_barcode_complete skus raw =
      if 8 ≤ raw.length ∧ (skus.lookup (stripNonAlnum raw)).isSome then
        (some (stripNonAlnum raw), "")
      else (none, raw) := by
  unfold process_barcode_complete
  by_cases h8 : 8 ≤ raw.length
  · have hne : raw ≠ "" := by
      intro h
      rw [h] at h8
      exact absurd h8 (by decide)
    rw [if_pos ⟨hne, h8⟩]
    by_cases hl : (skus.lookup (stripNonAlnum raw)).isSome
    · rw [if_pos hl, if_pos ⟨h8, hl⟩]
    · rw [if_neg hl, if_neg (by tauto)]
  · rw [if_neg (by tauto), if_neg (by tauto)]

theorem process_barcode_inputG_toBase (skus : Skus) (s : BarcodeStateG) (ch : Char) (now : Nat) :
    (process_barcode_inputG skus s ch now).1 =
      (process_barcode_input skus s.toBase ch now).1 ∧
    (process_barcode_inputG skus s ch now).2.toBase =
      (process_barcode_input skus s.toBase ch now).2 := by
  cases s with
  | mk buffer inputTime lastKey startTime =>
    unfold process_barcode_inputG process_barcode_input BarcodeStateG.toBase
    simp only
    split_ifs <;> simp_all [BarcodeStateG.toBase]

/-- C6 counterexample: twelve fast '1' keystrokes 99 ms apart start a buffer
at tick 0; the thirteenth keystroke arrives at tick 1188, more than
`barcode_timeout` (1000 ms) after the buffer was (re)started, yet the buffer
is NOT cleared: the call appends the character and emits the accumulated
13-character code.  The timeout in the code is measured from the last
appended character (99 ms earlier), not from the buffer's start. -/
theorem stale_buffer_counterexample :
    c6_state.startTime = 0 ∧
    c6_state.buffer.length = 12 ∧
    barcode_timeout < 1188 - c6_state.startTime ∧
    (process_barcode_inputG demo_skus c6_state '1' 1188).1 = some "1111111111111" := by
  refine ⟨by decide, by decide, by decide, ?_⟩
  rfl

/-- C6 (amended): the stale-input clearing in `process_barcode_input` fires
when more than `barcode_timeout` has elapsed since the LAST APPENDED
character (`self.barcode_input_time`), not since the buffer was
(re)started; when it fires the call proceeds exactly as if the buffer had
been cleared before the character is classified or appended. -/
theorem stale_buffer_cleared_by_last_char_time (skus : Skus) (s : BarcodeState) (ch : Char)
    (now : Nat) (h : barcode_timeout < now - s.inputTime) :
    process_barcode_input skus s ch now =
      process_barcode_input skus { s with buffer := [] } ch now := by
  unfold process_barcode_input
  simp only [gt_iff_lt]
  rw [if_pos h, if_pos h]

/-- Witness for `stale_buffer_cleared_by_last_char_time` at a concrete stale
state. -/
theorem stale_buffer_cleared_by_last_char_time_witness :
    barcode_timeout < 2000 - (⟨['9'], 500, 500⟩ : BarcodeState).inputTime ∧
    process_barcode_input demo_skus ⟨['9'], 500, 500⟩ '1' 2000 =
      process_barcode_input demo_skus ⟨[], 500, 500⟩ '1' 2000 :=
  ⟨by decide, stale_buffer_cleared_by_last_char_time demo_skus ⟨['9'], 500, 500⟩ '1' 2000 (by decide)⟩

/-- C8: in retail mode, a code that passes the cooldown gate but resolves
neither as a shortcut key nor as a SKU produces the "Product not found!"
message and leaves the cart, the running total and the receipt log
unchanged. -/
theorem product_not_found_no_mutation (sh : Shortcuts) (sk : Skus) (s : GameState)
    (code : String) (now : Nat)
    (hsh : sh.lookup code = none) (hsk : sk.lookup code = none)
    (hcool : scan_cooldown ≤ now - s.last_scan_time) :
    (scan_item sh sk s code now).cart = s.cart ∧
    (scan_item sh sk s code now).total_price = s.total_price ∧
    (scan_item sh sk s code now).receipt = s.receipt ∧
    (scan_item sh sk s code now).scanned_item = Msg.productNotFound := by
  unfold scan_item lookup_product
  rw [if_neg (by omega), hsh, hsk]
  exact ⟨rfl, rfl, rfl, rfl⟩

/-- Witness for `product_not_found_no_mutation`: code "99" is neither a
shortcut nor a SKU of the demo catalog. -/
theorem product_not_found_no_mutation_witness :
    (demo_shortcuts.lookup "99" = none ∧ demo_skus.lookup "99" = none ∧
      scan_cooldown ≤ 2000 - init_game_state.last_scan_time) ∧
    ((scan_item demo_shortcuts demo_skus init_game_state "99" 2000).cart =
        init_game_state.cart ∧
      (scan_item demo_shortcuts demo_skus init_game_state "99" 2000).total_price =
        init_game_state.total_price ∧
      (scan_item demo_shortcuts demo_skus init_game_state "99" 2000).receipt =
        init_game_state.receipt ∧
      (scan_item demo_shortcuts demo_skus init_game_state "99" 2000).scanned_item =
        Msg.productNotFound) :=
  ⟨⟨by decide, by decide, by decide⟩,
    product_not_found_no_mutation demo_shortcuts demo_skus init_game_state "99" 2000
      (by decide) (by decide) (by decide)⟩

theorem cartFind_add_to_cart (p : Product) (sku : String) (now : Nat) (s : GameState) :
    (cartFind (add_to_cart p sku now s).1.cart sku).isSome = true := by
  unfold add_to_cart
  cases h : cartFind s.cart sku with
  | some l =>
    simp only [h]
    rw [cartFind_incLine, h]
    rfl
  | none =>
    simp only [h]
    rw [cartFind_append_right _ _ _ h (by simp)]
    rfl

/-- C10: a code that is simultaneously a shortcut key and a direct SKU key
resolves through the shortcut indirection — `lookup_product` returns the
product stored under the shortcut's target SKU, and `scan_item` keys the
cart line by the target SKU, not by the code itself. -/
theorem shortcut_priority_lookup (sh : Shortcuts) (sk : Skus) (s : GameState)
    (code target : String) (pt : Product) (now : Nat)
    (hsh : sh.lookup code = some target)
    (hdirect : (sk.lookup code).isSome = true)
    (hpt : sk.lookup target = some pt)
    (hcool : scan_cooldown ≤ now - s.last_scan_time) :
    lookup_product sh sk code = some pt ∧
    scan_item sh sk s code now =
      (let r := add_to_cart pt target now { s with last_scan_time := now }
       { r.1 with scanned_item := r.2 }) ∧
    (cartFind (scan_item sh sk s code now).cart target).isSome = true := by
  have hlp : lookup_product sh sk code = some pt := by
    unfold lookup_product
    rw [hsh]
    exact hpt
  have hsi : scan_item sh sk s code now =
      (let r := add_to_cart pt target now { s with last_scan_time := now }
       { r.1 with scanned_item := r.2 }) := by
    unfold scan_item
    rw [if_neg (by omega)]
    simp only [hlp, hsh]
  refine ⟨hlp, hsi, ?_⟩
  rw [hsi]
  simp only
  exact cartFind_add_to_cart pt target now { s with last_scan_time := now }

/-- Witness for `shortcut_priority_lookup`: a catalog where "1" is both a
shortcut key (targeting the bread SKU) and a direct SKU key. -/
theorem shortcut_priority_lookup_witness :
    (demo_shortcuts.lookup "1" = some "7501234567890" ∧
      ((("1", demo_apple) :: demo_skus).lookup "1").isSome = true ∧
      (("1", demo_apple) :: demo_skus).lookup "7501234567890" = some demo_bread ∧
      scan_cooldown ≤ 1500 - init_game_state.last_scan_time) ∧
    (lookup_product demo_shortcuts (("1", demo_apple) :: demo_skus) "1" = some demo_bread ∧
      scan_item demo_shortcuts (("1", demo_apple) :: demo_skus) init_game_state "1" 1500 =
        (let r := add_to_cart demo_bread "7501234567890" 1500
            { init_game_state with last_scan_time := 1500 }
         { r.1 with scanned_item := r.2 }) ∧
      (cartFind (scan_item demo_shortcuts (("1", demo_apple) :: demo_skus)
          init_game_state "1" 1500).cart "7501234567890").isSome = true) :=
  ⟨⟨rfl, rfl, rfl, by decide⟩,
    shortcut_priority_lookup demo_shortcuts (("1", demo_apple) :: demo_skus) init_game_state
      "1" "7501234567890" demo_bread 1500 rfl rfl rfl (by decide)⟩

/-- C2 counterexample: after an accepted scan at tick 1000, the scan at
tick 1999 is dropped by the cooldown (`c2_state` equals the post-1000
state), and a second scan at tick 2500 — only 501 ms after the 1999 call,
well inside `scan_cooldown` — IS accepted and mutates the cart.  So two
submit calls 501 ms apart do not guarantee that the second changes no
state: the guarantee only holds relative to the last ACCEPTED scan. -/
theorem cooldown_pair_counterexample :
    c2_state = scan_item demo_shortcuts demo_skus
        (scan_item demo_shortcuts demo_skus init_game_state "1" 1000) "1" 1999 ∧
    2500 - 1999 < scan_cooldown ∧
    scan_item demo_shortcuts demo_skus c2_state "1" 2500 ≠ c2_state := by
  refine ⟨rfl, by decide, fun h => ?_⟩
  have hq : (scan_item demo_shortcuts demo_skus c2_state "1" 2500).cart.map
      (fun l => l.quantity) = [2] := rfl
  have hq' : c2_state.cart.map (fun l => l.quantity) = [1] := rfl
  rw [h, hq'] at hq
  exact absurd hq (by decide)

/-- C2 (amended): if the first of two submit calls is ACCEPTED (it passes
the cooldown gate, with a live target in learning mode), then any second
call within `scan_cooldown` of it — through either the retail handler or
the learning handler, which share the single cooldown clock — changes no
state at all. -/
theorem cooldown_after_accepted_no_mutation (sh : Shortcuts) (sk : Skus) (s : GameState)
    (code1 code2 : String) (t1 t2 : Nat) (tg : Product)
    (htgt : s.current_target = some tg)
    (hacc : scan_cooldown ≤ t1 - s.last_scan_time)
    (ht : t1 ≤ t2) (hwin : t2 - t1 < scan_cooldown) :
    scan_item sh sk (scan_item sh sk s code1 t1) code2 t2 =
      scan_item sh sk s code1 t1 ∧
    scan_timer_item sh sk (scan_item sh sk s code1 t1) code2 t2 =
      scan_item sh sk s code1 t1 ∧
    scan_item sh sk (scan_timer_item sh sk s code1 t1) code2 t2 =
      scan_timer_item sh sk s code1 t1 ∧
    scan_timer_item sh sk (scan_timer_item sh sk s code1 t1) code2 t2 =
      scan_timer_item sh sk s code1 t1 := by
  have h1 := scan_item_last sh sk s code1 t1 hacc
  have h2 := scan_timer_item_last sh sk s code1 t1 tg htgt hacc
  exact ⟨scan_item_dropped _ _ _ _ _ (by rw [h1]; omega),
    scan_timer_item_dropped _ _ _ _ _ (by rw [h1]; omega),
    scan_item_dropped _ _ _ _ _ (by rw [h2]; omega),
    scan_timer_item_dropped _ _ _ _ _ (by rw [h2]; omega)⟩

/-- Witness for `cooldown_after_accepted_no_mutation`: learning mode started
on a one-product order, first call accepted at tick 1000, second call at
tick 1500. -/
theorem cooldown_after_accepted_no_mutation_witness :
    ((start_timer_mode [demo_apple] init_game_state).current_target = some demo_apple ∧
      scan_cooldown ≤ 1000 - (start_timer_mode [demo_apple] init_game_state).last_scan_time ∧
      1000 ≤ 1500 ∧ 1500 - 1000 < scan_cooldown) ∧
    (scan_item demo_shortcuts demo_skus
        (scan_item demo_shortcuts demo_skus (start_timer_mode [demo_apple] init_game_state)
          "1" 1000) "12345678" 1500 =
      scan_item demo_shortcuts demo_skus (start_timer_mode [demo_apple] init_game_state)
        "1" 1000 ∧
    scan_timer_item demo_shortcuts demo_skus
        (scan_item demo_shortcuts demo_skus (start_timer_mode [demo_apple] init_game_state)
          "1" 1000) "12345678" 1500 =
      scan_item demo_shortcuts demo_skus (start_timer_mode [demo_apple] init_game_state)
        "1" 1000 ∧
    scan_item demo_shortcuts demo_skus
        (scan_timer_item demo_shortcuts demo_skus (start_timer_mode [demo_apple] init_game_state)
          "1" 1000) "12345678" 1500 =
      scan_timer_item demo_shortcuts demo_skus (start_timer_mode [demo_apple] init_game_state)
        "1" 1000 ∧
    scan_timer_item demo_shortcuts demo_skus
        (scan_timer_item demo_shortcuts demo_skus (start_timer_mode [demo_apple] init_game_state)
          "1" 1000) "12345678" 1500 =
      scan_timer_item demo_shortcuts demo_skus (start_timer_mode [demo_apple] init_game_state)
        "1" 1000) :=
  ⟨⟨rfl, by decide, by decide, by decide⟩,
    cooldown_after_accepted_no_mutation demo_shortcuts demo_skus
      (start_timer_mode [demo_apple] init_game_state) "1" "12345678" 1000 1500 demo_apple
      rfl (by decide) (by decide) (by decide)⟩

/-- C7: three `add_to_cart` calls for one product/SKU followed by three
`remove_last_item` calls return the cart to empty with running total 0
(exactly, prices being modelled as exact rationals).  The hypotheses make
the removals succeed: a positive `first_added` timestamp (as `time.time()`
always returns) and a non-empty SKU (Python's `if last_item_sku:` treats
the empty string as false). -/
theorem add3_remove3_roundtrip (p : Product) (sku : String) (t : Nat)
    (hsku : sku ≠ "") (ht : 0 < t) :
    (remove_last_item (remove_last_item (remove_last_item
      (add_to_cart p sku t (add_to_cart p sku t
        (add_to_cart p sku t init_game_state).1).1).1))).cart = [] ∧
    (remove_last_item (remove_last_item (remove_last_item
      (add_to_cart p sku t (add_to_cart p sku t
        (add_to_cart p sku t init_game_state).1).1).1))).total_price = 0 := by
  have hbeq : (sku == sku) = true := by simp
  have h3 : (add_to_cart p sku t (add_to_cart p sku t
      (add_to_cart p sku t init_game_state).1).1).1 =
    { cart := [⟨sku, p.name, p.price, 3, p.price + p.price + p.price,
        p.category, p.description, p.image, t⟩],
      total_price := 0 + p.price + p.price + p.price,
      receipt := [⟨p.name, p.price, t⟩, ⟨p.name, p.price, t⟩, ⟨p.name, p.price, t⟩],
      scanned_item := Msg.idle, last_scan_time := 0, timer_score := 0, timer_correct := 0,
      timer_items_found := [], learning_current_index := 0, learning_product_order := [],
      current_target := none } := by
    simp [add_to_cart, init_game_state, cartFind_nil, cartFind_cons, hbeq, incLine]
  rw [h3]
  simp [remove_last_item, List.foldl, ht, hsku, cartFind_cons, hbeq, decLine, eraseLine]

/-- Witness for `add3_remove3_roundtrip` at a concrete product. -/
theorem add3_remove3_roundtrip_witness :
    (("12345678" : String) ≠ "" ∧ 0 < 5) ∧
    ((remove_last_item (remove_last_item (remove_last_item
      (add_to_cart demo_apple "12345678" 5 (add_to_cart demo_apple "12345678" 5
        (add_to_cart demo_apple "12345678" 5 init_game_state).1).1).1))).cart = [] ∧
    (remove_last_item (remove_last_item (remove_last_item
      (add_to_cart demo_apple "12345678" 5 (add_to_cart demo_apple "12345678" 5
        (add_to_cart demo_apple "12345678" 5 init_game_state).1).1).1))).total_price = 0) :=
  ⟨⟨by decide, by decide⟩,
    add3_remove3_roundtrip demo_apple "12345678" 5 (by decide) (by decide)⟩

/-- C9: a cart line's identity fields are written once.  An `add_to_cart`
for an already-present SKU only bumps `quantity` and `total_price`, keeping
`sku`, `name`, `price` and `first_added`; a fresh add stamps `first_added`
with the add-time; and every line surviving `remove_last_item` keeps the
`sku`, `name`, `price` and `first_added` of a line of the previous cart. -/
theorem first_added_frame :
    (∀ (s : GameState) (p : Product) (sku : String) (t : Nat) (l : CartLine),
      cartFind s.cart sku = some l →
      cartFind (add_to_cart p sku t s).1.cart sku =
        some { l with quantity := l.quantity + 1, total_price := l.total_price + p.price }) ∧
    (∀ (s : GameState) (p : Product) (sku : String) (t : Nat),
      cartFind s.cart sku = none →
      cartFind (add_to_cart p sku t s).1.cart sku =
        some ⟨sku, p.name, p.price, 1, p.price, p.category, p.description, p.image, t⟩) ∧
    (∀ (s : GameState) (l' : CartLine), l' ∈ (remove_last_item s).cart →
      ∃ l, l ∈ s.cart ∧ l'.sku = l.sku ∧ l'.name = l.name ∧ l'.price = l.price ∧
        l'.first_added = l.first_added) := by
  refine ⟨?_, ?_, ?_⟩
  · intro s p sku t l h
    simp only [add_to_cart, h]
    rw [cartFind_incLine, h]
    rfl
  · intro s p sku t h
    simp only [add_to_cart, h]
    exact cartFind_append_right _ _ _ h (by simp)
  · intro s l' hl'
    unfold remove_last_item at hl'
    split at hl'
    · exact ⟨l', by simpa using hl', rfl, rfl, rfl, rfl⟩
    · simp only [] at hl'
      split at hl'
      · exact ⟨l', hl', rfl, rfl, rfl, rfl⟩
      · split at hl'
        · exact ⟨l', hl', rfl, rfl, rfl, rfl⟩
        · split at hl'
          · exact ⟨l', hl', rfl, rfl, rfl, rfl⟩
          · split at hl'
            · simp only at hl'
              rcases mem_decLine hl' with h1 | ⟨l, hfind, rfl⟩
              · exact ⟨l', h1, rfl, rfl, rfl, rfl⟩
              · exact ⟨l, List.mem_of_find?_eq_some hfind, rfl, rfl, rfl, rfl⟩
            · simp only at hl'
              exact ⟨l', mem_eraseLine hl', rfl, rfl, rfl, rfl⟩

/-- Witness for `first_added_frame`: two apple adds at ticks 5 and 7, then a
removal that decrements the aggregated line. -/
theorem first_added_frame_witness :
    (cartFind init_game_state.cart "12345678" = none ∧
      cartFind c9_s1.cart "12345678" = some c9_line1 ∧
      c9_dec_line ∈ (remove_last_item c9_s2).cart) ∧
    (cartFind c9_s1.cart "12345678" = some c9_line1 ∧
      cartFind c9_s2.cart "12345678" =
        some { c9_line1 with quantity := c9_line1.quantity + 1,
                             total_price := c9_line1.total_price + demo_apple.price } ∧
      ∃ l, l ∈ c9_s2.cart ∧ c9_dec_line.sku = l.sku ∧ c9_dec_line.name = l.name ∧
        c9_dec_line.price = l.price ∧ c9_dec_line.first_added = l.first_added) := by
  have hmem : c9_dec_line ∈ (remove_last_item c9_s2).cart := List.mem_singleton.mpr rfl
  exact ⟨⟨rfl, rfl, hmem⟩,
    first_added_frame.2.1 init_game_state demo_apple "12345678" 5 rfl,
    first_added_frame.1 c9_s1 demo_apple "12345678" 7 c9_line1 rfl,
    first_added_frame.2.2 c9_s2 c9_dec_line hmem⟩

theorem cartFind_mem {cart : List CartLine} {sku : String} {l : CartLine}
    (h : cartFind cart sku = some l) : l ∈ cart := by
  unfold cartFind at h
  exact List.mem_of_find?_eq_some h

theorem cartFind_sku {cart : List CartLine} {sku : String} {l : CartLine}
    (h : cartFind cart sku = some l) : l.sku = sku := by
  unfold cartFind at h
  simpa using List.find?_some h

theorem cartInv_add (skus : Skus) (s : GameState) (p : Product) (sku : String) (t : Nat)
    (hl : skus.lookup sku = some p) (h : CartInv skus s) :
    CartInv skus (add_to_cart p sku t s).1 := by
  obtain ⟨hsum, hlines⟩ := h
  cases hf : cartFind s.cart sku with
  | some l =>
    simp only [add_to_cart, hf]
    constructor
    · simp only [cartSum_incLine p.price hf, hsum]
    · intro l' hl'
      rcases mem_incLine hl' with hmem | ⟨l0, hfind, rfl⟩
      · exact hlines l' hmem
      · rw [hf] at hfind
        have heq : l = l0 := Option.some.inj hfind
        subst heq
        obtain ⟨hq, htot, p', hp', hpp'⟩ := hlines l (cartFind_mem hf)
        have hsku0 : l.sku = sku := cartFind_sku hf
        have hp0 : p' = p := by
          rw [hsku0, hl] at hp'
          exact Option.some.inj hp'.symm
        subst hp0
        refine ⟨show 1 ≤ l.quantity + 1 by omega, ?_, p', by rw [hsku0]; exact hl, hpp'⟩
        show l.total_price + p'.price = ((l.quantity + 1 : Nat) : ℚ) * l.price
        rw [htot, hpp']
        push_cast
        ring
  | none =>
    simp only [add_to_cart, hf]
    constructor
    · show s.total_price + p.price = cartSum (s.cart ++ [_])
      rw [cartSum_append, hsum]
      show cartSum s.cart + p.price = cartSum s.cart + (p.price + 0)
      ring
    · intro l' hl'
      rcases List.mem_append.1 hl' with hmem | hmem
      · exact hlines l' hmem
      · rcases List.mem_singleton.1 hmem with rfl
        refine ⟨le_refl 1, ?_, p, hl, rfl⟩
        show p.price = ((1 : Nat) : ℚ) * p.price
        push_cast
        ring

theorem cartInv_remove (skus : Skus) (s : GameState) (h : CartInv skus s) :
    CartInv skus (remove_last_item s) := by
  obtain ⟨hsum, hlines⟩ := h
  unfold remove_last_item
  split
  · exact ⟨hsum, hlines⟩
  · simp only []
    split
    · exact ⟨hsum, hlines⟩
    · split
      · exact ⟨hsum, hlines⟩
      · split
        · exact ⟨hsum, hlines⟩
        · rename_i sku hsku item hfind
          obtain ⟨hq, htot, p', hp', hpp'⟩ := hlines item (cartFind_mem hfind)
          split
          · rename_i hqty
            constructor
            · simp only [cartSum_decLine hfind, hsum]
            · intro l' hl'
              rcases mem_decLine hl' with hmem | ⟨l0, hfind0, rfl⟩
              · exact hlines l' hmem
              · rw [hfind] at hfind0
                have heq : item = l0 := Option.some.inj hfind0
                subst heq
                refine ⟨show 1 ≤ item.quantity - 1 by omega, ?_, p', hp', hpp'⟩
                show item.total_price - item.price = ((item.quantity - 1 : Nat) : ℚ) * item.price
                rw [htot]
                push_cast [Nat.cast_sub (show 1 ≤ item.quantity by omega)]
                ring
          · rename_i hqty
            have hq1 : item.quantity = 1 := by omega
            constructor
            · simp only [cartSum_eraseLine hfind, hsum]
              show cartSum s.cart - item.price = cartSum s.cart - item.total_price
              rw [htot, hq1]
              push_cast
              ring
            · intro l' hl'
              exact hlines l' (mem_eraseLine hl')

theorem cartInv_applyCartOp (skus : Skus) (s : GameState) (op : CartOp)
    (h : CartInv skus s) : CartInv skus (applyCartOp skus s op) := by
  cases op with
  | add sku t =>
    cases hl : skus.lookup sku with
    | none => simpa [applyCartOp, hl] using h
    | some p =>
      simp only [applyCartOp, hl]
      exact cartInv_add skus s p sku t hl h
  | removeLast => exact cartInv_remove skus s h
  | clear =>
    constructor
    · show (0 : ℚ) = cartSum []
      simp [cartSum]
    · intro l' hl'
      simp [applyCartOp, clear_cart] at hl'

theorem cartInv_runCartOps (skus : Skus) (ops : List CartOp) (s : GameState)
    (h : CartInv skus s) : CartInv skus (runCartOps skus s ops) := by
  induction ops generalizing s with
  | nil => exact h
  | cons op rest ih =>
    exact ih _ (cartInv_applyCartOp skus s op h)

/-- C3: after any finite sequence of cart operations (adds routed through
the fixed catalog, remove-last, clear) starting from the empty cart, the
running total equals the sum of the current line totals — exactly, prices
being modelled as exact rationals, hence within any floating-point
tolerance. -/
theorem cart_total_invariant (skus : Skus) (ops : List CartOp) :
    (runCartOps skus init_game_state ops).total_price =
      cartSum (runCartOps skus init_game_state ops).cart :=
  (cartInv_runCartOps skus ops init_game_state
    ⟨by simp [init_game_state, cartSum], by intro l hl; simp [init_game_state] at hl⟩).1

theorem spacedB_cons {last : Nat} {c : String} {t : Nat} {rest : List (String × Nat)} :
    spacedB last ((c, t) :: rest) = true ↔
      last ≤ t ∧ scan_cooldown ≤ t - last ∧ spacedB t rest = true := by
  simp [spacedB, and_assoc]

theorem spacedB_take (calls : List (String × Nat)) :
    ∀ (t k : Nat), spacedB t calls = true → spacedB t (calls.take k) = true := by
  induction calls with
  | nil => intro t k _; simp [spacedB]
  | cons c rest ih =>
    intro t k h
    cases k with
    | zero => simp [spacedB]
    | succ k =>
      obtain ⟨c1, c2⟩ := c
      rw [spacedB_cons] at h
      rw [List.take_succ_cons, spacedB_cons]
      exact ⟨h.1, h.2.1, ih _ _ h.2.2⟩

theorem generate_new_target_lt {x : GameState}
    (h : x.learning_current_index < x.learning_product_order.length) :
    (generate_new_target x).current_target =
      some (x.learning_product_order.get ⟨x.learning_current_index, h⟩) ∧
    (generate_new_target x).learning_current_index = x.learning_current_index + 1 := by
  unfold generate_new_target
  rw [dif_pos h]
  exact ⟨rfl, rfl⟩

theorem generate_new_target_ge {x : GameState}
    (h : ¬ x.learning_current_index < x.learning_product_order.length) :
    (generate_new_target x).current_target = none ∧
    (generate_new_target x).learning_current_index = x.learning_current_index := by
  unfold generate_new_target
  rw [dif_neg h]
  exact ⟨rfl, rfl⟩

theorem scan_timer_item_accepted (sh : Shortcuts) (sk : Skus) (s : GameState) (code : String)
    (now : Nat) (tg : Product) (htgt : s.current_target = some tg)
    (hcool : ¬(now - s.last_scan_time < scan_cooldown)) :
    ∃ s', scan_timer_item sh sk s code now = generate_new_target s' ∧
      s'.learning_current_index = s.learning_current_index ∧
      s'.learning_product_order = s.learning_product_order ∧
      s'.last_scan_time = now := by
  unfold scan_timer_item
  rw [htgt]
  simp only
  rw [if_neg hcool]
  cases lookup_product sh sk code with
  | none => exact ⟨_, rfl, rfl, rfl, rfl⟩
  | some p =>
    simp only
    split
    · exact ⟨_, rfl, rfl, rfl, rfl⟩
    · exact ⟨_, rfl, rfl, rfl, rfl⟩

theorem runTimer_completes (sh : Shortcuts) (sk : Skus) :
    ∀ (calls : List (String × Nat)) (s : GameState),
      spacedB s.last_scan_time calls = true →
      s.current_target.isSome = true →
      s.learning_current_index ≤ s.learning_product_order.length →
      calls.length + s.learning_current_index = s.learning_product_order.length + 1 →
      (runTimer sh sk s calls).current_target = none := by
  intro calls
  induction calls with
  | nil =>
    intro s _ _ hle hlen
    simp at hlen
    omega
  | cons c rest ih =>
    intro s hspaced htgt hle hlen
    obtain ⟨code, t⟩ := c
    rw [spacedB_cons] at hspaced
    obtain ⟨tg, htg⟩ := Option.isSome_iff_exists.1 htgt
    obtain ⟨s', hstep, hidx, hord, hlast⟩ :=
      scan_timer_item_accepted sh sk s code t tg htg (by omega)
    rw [runTimer, hstep]
    by_cases hlt : s.learning_current_index < s.learning_product_order.length
    · have hlt' : s'.learning_current_index < s'.learning_product_order.length := by
        rw [hidx, hord]; exact hlt
      obtain ⟨htg', hidx'⟩ := generate_new_target_lt hlt'
      apply ih
      · rw [(generate_new_target_frame s').1, hlast]
        exact hspaced.2.2
      · rw [htg']; rfl
      · rw [hidx', (generate_new_target_frame s').2.1, hidx, hord]
        omega
      · rw [hidx', (generate_new_target_frame s').2.1, hidx, hord]
        simp at hlen
        omega
    · have hN : s.learning_current_index = s.learning_product_order.length := by omega
      have hrest : rest = [] := by
        simp at hlen
        have : rest.length = 0 := by omega
        exact List.length_eq_zero.1 this
      subst hrest
      have hlt' : ¬ s'.learning_current_index < s'.learning_product_order.length := by
        rw [hidx, hord]; exact hlt
      exact (generate_new_target_ge hlt').1

theorem runTimer_active (sh : Shortcuts) (sk : Skus) :
    ∀ (calls : List (String × Nat)) (s : GameState),
      spacedB s.last_scan_time calls = true →
      s.current_target.isSome = true →
      calls.length + s.learning_current_index ≤ s.learning_product_order.length →
      (runTimer sh sk s calls).current_target.isSome = true := by
  intro calls
  induction calls with
  | nil => intro s _ htgt _; exact htgt
  | cons c rest ih =>
    intro s hspaced htgt hle
    obtain ⟨code, t⟩ := c
    rw [spacedB_cons] at hspaced
    obtain ⟨tg, htg⟩ := Option.isSome_iff_exists.1 htgt
    obtain ⟨s', hstep, hidx, hord, hlast⟩ :=
      scan_timer_item_accepted sh sk s code t tg htg (by omega)
    rw [runTimer, hstep]
    have hlt : s.learning_current_index < s.learning_product_order.length := by
      simp at hle
      omega
    have hlt' : s'.learning_current_index < s'.learning_product_order.length := by
      rw [hidx, hord]; exact hlt
    obtain ⟨htg', hidx'⟩ := generate_new_target_lt hlt'
    apply ih
    · rw [(generate_new_target_frame s').1, hlast]
      exact hspaced.2.2
    · rw [htg']; rfl
    · rw [hidx', (generate_new_target_frame s').2.1, hidx, hord]
      simp at hle
      omega

/-- C4: after `start_timer_mode` on an order of N products, any N
learning-mode scans that pass the gates (spaced at least `scan_cooldown`
apart), whatever their codes resolve to, leave `current_target = none`, and
after every proper prefix of those N scans the target is still present. -/
theorem learning_session_terminates (sh : Shortcuts) (sk : Skus) (s : GameState)
    (order : List Product) (calls : List (String × Nat))
    (hspaced : spacedB (start_timer_mode order s).last_scan_time calls = true)
    (hlen : calls.length = order.length) :
    (runTimer sh sk (start_timer_mode order s) calls).current_target = none ∧
    ∀ k, k < calls.length →
      (runTimer sh sk (start_timer_mode order s)
        (calls.take k)).current_target.isSome = true := by
  have hrec : start_timer_mode order s = generate_new_target
      { s with timer_score := 0, timer_correct := 0, timer_items_found := [],
               learning_current_index := 0, scanned_item := Msg.idle,
               learning_product_order := order } := rfl
  generalize hR : ({ s with timer_score := 0, timer_correct := 0, timer_items_found := [],
                            learning_current_index := 0, scanned_item := Msg.idle,
                            learning_product_order := order } : GameState) = R at hrec
  have hRidx : R.learning_current_index = 0 := by rw [← hR]
  have hRord : R.learning_product_order = order := by rw [← hR]
  rw [hrec] at hspaced ⊢
  constructor
  · by_cases h0 : 0 < order.length
    · have hlt : R.learning_current_index < R.learning_product_order.length := by
        rw [hRidx, hRord]; exact h0
      obtain ⟨htg, hidx⟩ := generate_new_target_lt hlt
      apply runTimer_completes sh sk calls
      · exact hspaced
      · rw [htg]; rfl
      · rw [hidx, (generate_new_target_frame R).2.1, hRidx, hRord]
        omega
      · rw [hidx, (generate_new_target_frame R).2.1, hRidx, hRord, hlen]
    · have hcalls : calls = [] := List.length_eq_zero.1 (by omega)
      subst hcalls
      have hge : ¬ R.learning_current_index < R.learning_product_order.length := by
        rw [hRidx, hRord]; omega
      exact (generate_new_target_ge hge).1
  · intro k hk
    have h0 : 0 < order.length := by omega
    have hlt : R.learning_current_index < R.learning_product_order.length := by
      rw [hRidx, hRord]; exact h0
    obtain ⟨htg, hidx⟩ := generate_new_target_lt hlt
    apply runTimer_active
    · exact spacedB_take calls _ k hspaced
    · rw [htg]; rfl
    · rw [List.length_take, hidx, (generate_new_target_frame R).2.1, hRidx, hRord]
      omega

/-- Witness for `learning_session_terminates`: a two-product order and two
spaced scans (one resolvable, one not). -/
theorem learning_session_terminates_witness :
    (spacedB (start_timer_mode [demo_apple, demo_bread] init_game_state).last_scan_time
        [("12345678", 1000), ("zz", 2000)] = true ∧
      ([("12345678", 1000), ("zz", 2000)] : List (String × Nat)).length =
        ([demo_apple, demo_bread] : List Product).length) ∧
    ((runTimer demo_shortcuts demo_skus
        (start_timer_mode [demo_apple, demo_bread] init_game_state)
        [("12345678", 1000), ("zz", 2000)]).current_target = none ∧
      ∀ k, k < ([("12345678", 1000), ("zz", 2000)] : List (String × Nat)).length →
        (runTimer demo_shortcuts demo_skus
          (start_timer_mode [demo_apple, demo_bread] init_game_state)
          (([("12345678", 1000), ("zz", 2000)] :
            List (String × Nat)).take k)).current_target.isSome = true) :=
  ⟨⟨by decide, by decide⟩,
    learning_session_terminates demo_shortcuts demo_skus init_game_state
      [demo_apple, demo_bread] [("12345678", 1000), ("zz", 2000)] (by decide) (by decide)⟩

theorem chainB_cons {t : Nat} {c : Char} {t' : Nat} {rest : List (Char × Nat)} :
    chainB t ((c, t') :: rest) = true ↔
      t ≤ t' ∧ t' - t < scanner_speed_threshold ∧ c.isAlphanum = true ∧
        chainB t' rest = true := by
  simp [chainB, and_assoc]

theorem fastBurstB_cons {c : Char} {t : Nat} {rest : List (Char × Nat)} :
    fastBurstB ((c, t) :: rest) = true ↔ c.isAlphanum = true ∧ chainB t rest = true := by
  simp [fastBurstB]

theorem runInput_cons (skus : Skus) (s : BarcodeState) (c : Char) (t : Nat)
    (rest : List (Char × Nat)) :
    runInput skus s ((c, t) :: rest) =
      ((process_barcode_input skus s c t).1 ::
        (runInput skus (process_barcode_input skus s c t).2 rest).1,
       (runInput skus (process_barcode_input skus s c t).2 rest).2) := rfl

theorem process_fast_no_emit (skus : Skus) (buf : List Char) (T t : Nat) (c : Char)
    (hbuf : buf ≠ []) (hc : c.isAlphanum = true) (hle : T ≤ t)
    (hfast : t - T < scanner_speed_threshold) (hshort : buf.length + 1 < 8) :
    process_barcode_input skus ⟨buf, T, T⟩ c t = (none, ⟨buf ++ [c], t, t⟩) := by
  unfold process_barcode_input
  have h1 : ¬ (t - T > barcode_timeout) := by
    unfold barcode_timeout
    unfold scanner_speed_threshold at hfast
    omega
  rw [if_neg h1, if_pos hc, if_pos (Or.inr hfast)]
  rw [if_neg (by simp; omega)]

theorem process_fast_emit (skus : Skus) (buf : List Char) (T t : Nat) (c : Char)
    (hbuf : buf ≠ []) (hc : c.isAlphanum = true) (hle : T ≤ t)
    (hfast : t - T < scanner_speed_threshold) (hfull : buf.length + 1 = 8)
    (hlook : (skus.lookup (String.mk (buf ++ [c]))).isSome = true) :
    process_barcode_input skus ⟨buf, T, T⟩ c t =
      (some (String.mk (buf ++ [c])), ⟨[], t, t⟩) := by
  unfold process_barcode_input
  have h1 : ¬ (t - T > barcode_timeout) := by
    unfold barcode_timeout
    unfold scanner_speed_threshold at hfast
    omega
  rw [if_neg h1, if_pos hc, if_pos (Or.inr hfast)]
  rw [if_pos (by simp; omega), if_pos hlook]

theorem run_fast_emit (skus : Skus) :
    ∀ (evs : List (Char × Nat)) (buf : List Char) (T : Nat),
      evs ≠ [] → buf ≠ [] → chainB T evs = true →
      buf.length + evs.length = 8 →
      (skus.lookup (String.mk (buf ++ evs.map Prod.fst))).isSome = true →
      (runInput skus ⟨buf, T, T⟩ evs).1 =
        List.replicate (evs.length - 1) none ++
          [some (String.mk (buf ++ evs.map Prod.fst))] ∧
      (runInput skus ⟨buf, T, T⟩ evs).2.buffer = [] := by
  intro evs
  induction evs with
  | nil => intro buf T hne; exact absurd rfl hne
  | cons e rest ih =>
    intro buf T hne hbuf hchain hlen hlook
    obtain ⟨c, t⟩ := e
    rw [chainB_cons] at hchain
    obtain ⟨hle, hfast, hc, hchain'⟩ := hchain
    cases hrest : rest with
    | nil =>
      subst hrest
      have hfull : buf.length + 1 = 8 := by simpa using hlen
      have hlook' : (skus.lookup (String.mk (buf ++ [c]))).isSome = true := by
        simpa using hlook
      rw [runInput_cons, process_fast_emit skus buf T t c hbuf hc hle hfast hfull hlook']
      simp [runInput]
    | cons e2 rest2 =>
      subst hrest
      have hshort : buf.length + 1 < 8 := by
        simp only [List.length_cons] at hlen
        omega
      rw [runInput_cons, process_fast_no_emit skus buf T t c hbuf hc hle hfast hshort]
      have hres := ih (buf ++ [c]) t (by simp) (by simp)
        hchain' (by simp at hlen ⊢; omega)
        (by rw [List.append_assoc]; simpa using hlook)
      refine ⟨?_, ?_⟩
      · rw [hres.1]
        have hlen2 : (e2 :: rest2).length - 1 + 1 = (e2 :: rest2).length := by
          simp
        rw [show (((c, t) :: e2 :: rest2).length - 1) = (e2 :: rest2).length by simp]
        rw [← hlen2, List.replicate_succ]
        simp [List.append_assoc]
      · rw [hres.2]

/-- C1: feeding a fast burst of alphanumeric characters (each within
`scanner_speed_threshold` of the previous one) into an empty buffer, the
moment the accumulated buffer equals a known 8-character catalog key the
call returns that key as the completed code and clears the buffer — no
further characters are needed. -/
theorem fast_burst_emits_known_key (skus : Skus) (s : BarcodeState)
    (evs : List (Char × Nat))
    (hbuf : s.buffer = [])
    (hfastb : fastBurstB evs = true)
    (hlen : evs.length = 8)
    (hkey : (skus.lookup (String.mk (evs.map Prod.fst))).isSome = true) :
    (runInput skus s evs).1 =
      List.replicate 7 none ++ [some (String.mk (evs.map Prod.fst))] ∧
    (runInput skus s evs).2.buffer = [] := by
  cases evs with
  | nil => simp at hlen
  | cons e rest =>
    obtain ⟨c, t⟩ := e
    rw [fastBurstB_cons] at hfastb
    obtain ⟨hc, hchain⟩ := hfastb
    have hstep : process_barcode_input skus s c t = (none, ⟨[c], t, t⟩) := by
      unfold process_barcode_input
      have hid : ({ s with buffer := [] } : BarcodeState) = s := by
        cases s
        simp_all
      rw [hid, ite_self, if_pos hc, if_pos (Or.inl hbuf)]
      rw [hbuf]
      rw [if_neg (by simp)]
      simp
    rw [runInput_cons, hstep]
    have hres := run_fast_emit skus rest [c] t
      (by intro h; subst h; simp at hlen) (by simp) hchain
      (by simp at hlen ⊢; omega) (by simpa using hkey)
    refine ⟨?_, ?_⟩
    · rw [hres.1]
      have h7 : rest.length - 1 + 1 = 7 := by simp at hlen; omega
      rw [show (7 : Nat) = rest.length - 1 + 1 by omega, List.replicate_succ]
      simp
    · exact hres.2

/-- Witness for `fast_burst_emits_known_key`: the spec §8 scenario — the
characters of "12345678" fed 10 ms apart emit the key on the 8th call. -/
theorem fast_burst_emits_known_key_witness :
    ((⟨[], 0, 0⟩ : BarcodeState).buffer = [] ∧
      fastBurstB [('1', 0), ('2', 10), ('3', 20), ('4', 30), ('5', 40), ('6', 50),
        ('7', 60), ('8', 70)] = true ∧
      ([('1', 0), ('2', 10), ('3', 20), ('4', 30), ('5', 40), ('6', 50),
        ('7', 60), ('8', 70)] : List (Char × Nat)).length = 8 ∧
      (demo_skus.lookup (String.mk (([('1', 0), ('2', 10), ('3', 20), ('4', 30), ('5', 40),
        ('6', 50), ('7', 60), ('8', 70)] : List (Char × Nat)).map Prod.fst))).isSome = true) ∧
    ((runInput demo_skus ⟨[], 0, 0⟩ [('1', 0), ('2', 10), ('3', 20), ('4', 30), ('5', 40),
        ('6', 50), ('7', 60), ('8', 70)]).1 =
      List.replicate 7 none ++
        [some (String.mk (([('1', 0), ('2', 10), ('3', 20), ('4', 30), ('5', 40),
          ('6', 50), ('7', 60), ('8', 70)] : List (Char × Nat)).map Prod.fst))] ∧
    (runInput demo_skus ⟨[], 0, 0⟩ [('1', 0), ('2', 10), ('3', 20), ('4', 30), ('5', 40),
        ('6', 50), ('7', 60), ('8', 70)]).2.buffer = []) :=
  ⟨⟨rfl, by decide, by decide, by decide⟩,
    fast_burst_emits_known_key demo_skus ⟨[], 0, 0⟩
      [('1', 0), ('2', 10), ('3', 20), ('4', 30), ('5', 40), ('6', 50), ('7', 60), ('8', 70)]
      rfl (by decide) (by decide) (by decide)⟩
